import Mathlib

/-!
Verification development for the second-brain RAG service.

The TypeScript sources are shallowly embedded:
* JavaScript numbers are modelled as `Rat` (all values appearing in the
  claims are exactly representable as IEEE doubles, so `Rat` arithmetic
  agrees with the source on them); result-count limits are `Nat`.
* `x || d` on possibly-undefined strings/numbers/booleans is modelled by
  the explicit `jsOr*` helpers (JS treats `undefined`, `""`, `0` and
  `false` as falsy).
* `async` functions that may throw are modelled as `Except String _`;
  `try/catch` becomes a `match` on that value.
* The networked collaborators (Chroma vector store, DeepSeek chat
  backend) are inputs: the store's raw query response, the outcome of a
  search, and the upstream token stream are passed in explicitly.
-/

namespace SecondBrain

/-- JS `x || d` for a possibly-undefined string: `undefined` and `""` are falsy. -/
def jsOrString (x : Option String) (d : String) : String :=
  match x with
  | none => d
  | some s => if s = "" then d else s

/-- JS `x || d` for a possibly-undefined number used as a count: `undefined` and `0` are falsy. -/
def jsOrNat (x : Option Nat) (d : Nat) : Nat :=
  match x with
  | none => d
  | some n => if n = 0 then d else n

/-- JS `x || d` for a possibly-undefined number: `undefined` and `0` are falsy. -/
def jsOrRat (x : Option Rat) (d : Rat) : Rat :=
  match x with
  | none => d
  | some r => if r = 0 then d else r

/-- JS truthiness of a possibly-undefined boolean (`if (request.useRag)`). -/
def jsTruthy (x : Option Bool) : Bool :=
  match x with
  | none => false
  | some b => b

/-- JS `Array.prototype.join(sep)`. -/
def joinSep (sep : String) : List String → String
  | [] => ""
  | [x] => x
  | x :: y :: xs => x ++ sep ++ joinSep sep (y :: xs)

/-- Document metadata (`Record<string, any>`); values are irrelevant to the claims. -/
abbrev Metadata := List (String × String)

/-- Structure `VectorDocument` from chroma-service.ts. -/
structure VectorDocument where
  id : String
  content : String
  metadata : Metadata
deriving DecidableEq, Repr

/-- Structure `SearchResult` from chroma-service.ts. -/
structure SearchResult where
  document : VectorDocument
  score : Rat
deriving DecidableEq, Repr

end SecondBrain

namespace SecondBrain.LLMService

/-- The labelled context blocks built by `retrieveContext`:
`results.map((result, index) => `[Document N]\n` + content)`,
translated with the running index made explicit. -/
def contextParts : List SearchResult → Nat → List String
  | [], _ => []
  | r :: rest, index =>
      ("[Document " ++ toString (index + 1) ++ "]\n" ++ r.document.content)
        :: contextParts rest (index + 1)

/-- Model of `LLMService.retrieveContext` (llm-service.ts, RAG version, lines 151-168):
the search outcome is either a thrown store error or a result list; a
thrown error is caught and `""` returned; an empty result list also
yields `""`; otherwise the labelled blocks are joined with the fixed
separator. -/
def retrieveContext (searchOutcome : Except String (List SearchResult)) : String :=
  match searchOutcome with
  | .error _ => ""
  | .ok results =>
      if results.length = 0 then ""
      else joinSep ("\n\n---\n\n") (contextParts results 0)

/-- The exact fallback sentence demanded of the model inside the RAG prompt. -/
def ragFallbackSentence : String :=
  "I don\x27t have enough information in your documents to answer this question."

/-- Model of `LLMService.buildRagPrompt` (llm-service.ts, RAG version, lines 170-176):
empty context (JS-falsy string) returns the user message unchanged;
otherwise the fixed template wraps the context and question. -/
def buildRagPrompt (userMessage context : String) : String :=
  if context = "" then userMessage
  else
    "Context information from documents:\n" ++ context ++
      "\n\n---\n\nBased on the context above, please answer the following question. If the context doesn\x27t contain relevant information, say \"" ++
      ragFallbackSentence ++ "\"\n\nQuestion: " ++ userMessage

end SecondBrain.LLMService

namespace SecondBrain.ChromaService

/-- The raw response of the vector store's `collection.query` call
(chroma-service.ts, lines 197-206): row-major lists of per-query rows;
`documents`, `metadatas` and `distances` may be absent, entries of a
document row may be `null`. -/
structure QueryResponse where
  documents : Option (List (List (Option String)))
  metadatas : Option (List (List Metadata))
  distances : Option (List (List Rat))
  ids : List (List String)
deriving Repr

/-- One entry of the `documents.map((content, index) => ...)` callback in
`ChromaService.search` (chroma-service.ts, lines 208-219): JS-falsy
content (null or `""`) is dropped; `ids[index] || unknown_N`,
`metadatas[index] || \x7b\x7d` and `distances[index] || 0` translate to the
`jsOr*` helpers over out-of-bounds-as-`undefined` indexing. -/
def searchEntry (ids : List String) (metadatas : List Metadata) (distances : List Rat)
    (index : Nat) (content : Option String) : Option SearchResult :=
  match content with
  | none => none
  | some c =>
      if c = "" then none
      else some
        { document :=
            { id := jsOrString (ids.get? index) ("unknown_" ++ toString index)
              content := c
              metadata := (metadatas.get? index).getD [] }
          score := 1 - jsOrRat (distances.get? index) 0 }

/-- The result-assembly step of `ChromaService.search`
(chroma-service.ts, lines 199-219): if any of `documents`, `metadatas`
or `distances` is absent the result is `[]`; otherwise the first row of
each (defaulting to `[]`) is taken and the per-entry map is applied,
dropping the `null` entries. -/
def search (resp : QueryResponse) : List SearchResult :=
  match resp.documents, resp.metadatas, resp.distances with
  | some documentRows, some metadataRows, some distanceRows =>
      let documents := documentRows.headD []
      let metadatas := metadataRows.headD []
      let distances := distanceRows.headD []
      let ids := resp.ids.headD []
      (documents.enum.map (fun p => searchEntry ids metadatas distances p.1 p.2)).reduceOption
  | _, _, _ => []

end SecondBrain.ChromaService

namespace SecondBrain

/-- A message of a `ChatRequest` (types/chat.ts). -/
structure ChatMessage where
  role : String
  content : String
deriving DecidableEq, Repr

/-- Structure `ChatRequest` (types/chat.ts), with the optional RAG fields used by
the RAG version of `LLMService.streamChat`. -/
structure ChatRequest where
  messages : List ChatMessage
  model : Option String
  useRag : Option Bool
  ragLimit : Option Nat
deriving DecidableEq, Repr

/-- The `message` object of a `ChatResponse` choice (types/chat.ts). -/
structure ChoiceMessage where
  role : String
  content : String
deriving DecidableEq, Repr

/-- One element of `ChatResponse.choices` (types/chat.ts). -/
structure ChatChoice where
  index : Nat
  message : ChoiceMessage
  finishReason : String
deriving DecidableEq, Repr

/-- Structure `ChatResponse` (types/chat.ts), as constructed by `streamChat`. -/
structure ChatResponse where
  id : String
  object : String
  created : Nat
  model : String
  choices : List ChatChoice
deriving DecidableEq, Repr

/-- Escaping by `JSON.stringify` of one character of a string value. -/
def jsonEscapeChar (c : Char) : String :=
  if c = '\\' then "\\\\"
  else if c = '"' then "\\\""
  else if c = '\n' then "\\n"
  else if c = '\r' then "\\r"
  else if c = '\t' then "\\t"
  else if c.toNat < 32 then "\\u" ++ (List.replicate (4 - (Nat.toDigits 16 c.toNat).length) (Char.ofNat 48)).asString ++ (Nat.toDigits 16 c.toNat).asString
  else String.singleton c

/-- Output of `JSON.stringify` on a string value. -/
def jsonStr (s : String) : String :=
  "\"" ++ String.join (s.toList.map jsonEscapeChar) ++ "\""

/-- Output of `JSON.stringify` on one `choices` element, field order as in the
object literal of `streamChat` (llm-service.ts, lines 201-210). -/
def ChatChoice.toJson (c : ChatChoice) : String :=
  "\x7b\"index\":" ++ toString c.index ++
    ",\"message\":\x7b\"role\":" ++ jsonStr c.message.role ++
    ",\"content\":" ++ jsonStr c.message.content ++
    "\x7d,\"finishReason\":" ++ jsonStr c.finishReason ++ "\x7d"

/-- Output of `JSON.stringify(response)` for the envelope built by `streamChat`
(llm-service.ts, lines 196-213), field order as in the object literal. -/
def ChatResponse.toJson (r : ChatResponse) : String :=
  "\x7b\"id\":" ++ jsonStr r.id ++
    ",\"object\":" ++ jsonStr r.object ++
    ",\"created\":" ++ toString r.created ++
    ",\"model\":" ++ jsonStr r.model ++
    ",\"choices\":[" ++ joinSep (",") (r.choices.map ChatChoice.toJson) ++ "]\x7d"

end SecondBrain

namespace SecondBrain.DeepSeekAgent

/-- Model of `DeepSeekAgent.stream` (deepseek-agent.ts, lines 105-121): the
upstream token stream either throws or delivers a chunk list; a thrown
error is re-wrapped as `DeepSeek API error: <detail>`; otherwise each
chunk with JS-truthy (non-empty) content is passed to `onToken` in
arrival order — the returned list is exactly the `onToken` call
sequence. -/
def stream (upstream : Except String (List String)) : Except String (List String) :=
  match upstream with
  | .error e => .error ("DeepSeek API error: " ++ e)
  | .ok chunks => .ok (chunks.filter (fun c => c ≠ ""))

end SecondBrain.DeepSeekAgent

namespace SecondBrain.LLMService

/-- The external collaborators and ambient state of one `streamChat`
call: the outcome of `chromaService.search(query, limit)` (either a
thrown store error or a result list), the upstream model stream for a
given prompt (either a thrown transport/API error or the chunk list),
and `Date.now()` in milliseconds. -/
structure StreamEnv where
  searchOutcome : String → Nat → Except String (List SearchResult)
  upstream : String → Except String (List String)
  nowMs : Nat

/-- The observable outcome of a successful `streamChat` call: the limit
passed to `retrieveContext` (none when RAG was skipped), the prompt
handed to `agent.stream`, and the chunks yielded by the generator. -/
structure StreamOk where
  retrievalLimit : Option Nat
  agentPrompt : String
  chunks : List String
deriving DecidableEq, Repr

/-- The limit `streamChat` passes to `retrieveContext`: `none` when
`request.useRag` is JS-falsy (RAG skipped), otherwise
`request.ragLimit || 3` (llm-service.ts, lines 182-183). -/
def effectiveRetrievalLimit (request : ChatRequest) : Option Nat :=
  if jsTruthy request.useRag then some (jsOrNat request.ragLimit 3) else none

/-- The final value of the `userMessage` variable of `streamChat`
(llm-service.ts, lines 180-185): the last message's content, replaced —
when RAG is active — by `buildRagPrompt` over the retrieved context. -/
def agentPromptFor (env : StreamEnv) (question : String) : Option Nat → String
  | some limit =>
      buildRagPrompt question (retrieveContext (env.searchOutcome question limit))
  | none => question

/-- The `response` object literal of `streamChat` (llm-service.ts,
lines 196-211). -/
def envelopeFor (env : StreamEnv) (request : ChatRequest) (fullResponse : String) :
    ChatResponse :=
  { id := "chatcmpl-" ++ toString env.nowMs
    object := "chat.completion"
    created := env.nowMs / 1000
    model := jsOrString request.model ("deepseek-chat")
    choices :=
      [{ index := 0
         message := { role := "assistant", content := fullResponse }
         finishReason := "stop" }] }

/-- The accumulation loop of `streamChat` (llm-service.ts, lines
187-194): `fullResponse` starts empty and each `onToken` call appends
its token. -/
def accumulate (tokens : List String) : String :=
  tokens.foldl (fun acc t => acc ++ t) ""

/-- The `try` block of `LLMService.streamChat` (llm-service.ts, RAG
version, lines 179-213): take the last message's content (an empty
message list makes the non-null assertion throw a TypeError); when
`request.useRag` is JS-truthy, retrieve context with
`request.ragLimit || 3` and build the RAG prompt; stream from the agent
accumulating `fullResponse` from the `onToken` calls; yield
`JSON.stringify(response)` as the single chunk. -/
def streamChatBody (env : StreamEnv) (request : ChatRequest) : Except String StreamOk :=
  match request.messages.getLast? with
  | none => .error ("Cannot read properties of undefined (reading \x27content\x27)")
  | some lastMessage =>
      match DeepSeekAgent.stream
          (env.upstream
            (agentPromptFor env lastMessage.content (effectiveRetrievalLimit request))) with
      | .error e => .error e
      | .ok tokens =>
          .ok { retrievalLimit := effectiveRetrievalLimit request
                agentPrompt :=
                  agentPromptFor env lastMessage.content (effectiveRetrievalLimit request)
                chunks := [(envelopeFor env request (accumulate tokens)).toJson] }

/-- Model of `LLMService.streamChat` (llm-service.ts, RAG version, lines
178-218): the `catch` wraps any error thrown in the body as
`LLM streaming error: <detail>` and re-throws it. -/
def streamChat (env : StreamEnv) (request : ChatRequest) : Except String StreamOk :=
  match streamChatBody env request with
  | .ok r => .ok r
  | .error e => .error ("LLM streaming error: " ++ e)

end SecondBrain.LLMService

namespace SecondBrain

/-- One `data:` frame of the SSE response (`reply.raw.write`). -/
def sseFrame (chunk : String) : String := "data: " ++ chunk ++ "\n\n"

/-- The `POST /api/chat` handler (routes/chat-routes.ts, part_005 lines
11-32): each chunk yielded by `streamChat` is written as a
`data: <chunk>\n\n` frame, then the literal `data: [DONE]\n\n` is
written; a thrown error aborts the handler (asyncHandler) with no
`[DONE]` marker. -/
def chatRoute (env : LLMService.StreamEnv) (request : ChatRequest) :
    Except String (List String) :=
  match LLMService.streamChat env request with
  | .error e => .error e
  | .ok r => .ok (r.chunks.map sseFrame ++ [sseFrame ("[DONE]")])

end SecondBrain

namespace SecondBrain.ChromaService

/-- The shared lazy-initialization state of `ChromaService`
(chroma-service.ts, lines 57-121) together with verification counters.
`initialized` and `pending` mirror the fields `initialized` and
`initializationPromise !== null`; `initCount` counts started
`initialize()` calls; `waiters` counts callers awaiting the pending
promise; `served` counts callers whose `ensureInitialized()` has
resolved. -/
structure InitState where
  initialized : Bool
  pending : Bool
  initCount : Nat
  waiters : Nat
  served : Nat
deriving DecidableEq, Repr

/-- Fresh service: `initialized = false`, `initializationPromise = null`. -/
def initState0 : InitState :=
  { initialized := false, pending := false, initCount := 0, waiters := 0, served := 0 }

/-- Events of the lazy-initialization protocol under the JS
run-to-completion model: `arrive` is one request running the
synchronous prefix of `ensureInitialized()` (lines 76-87: the two
checks and, when no promise is pending, the assignment
`initializationPromise = initialize()` — atomic because no `await`
separates them); `complete` is the successful resolution of the pending
`initialize()` promise, waking every awaiting caller. -/
inductive InitEvent
  | arrive
  | complete
deriving DecidableEq, Repr

/-- One step of the lazy-initialization protocol. -/
def initStep (s : InitState) : InitEvent → InitState
  | .arrive =>
      if s.initialized then { s with served := s.served + 1 }
      else if s.pending then { s with waiters := s.waiters + 1 }
      else
        { s with pending := true, initCount := s.initCount + 1, waiters := s.waiters + 1 }
  | .complete =>
      if s.pending && !s.initialized then
        { s with initialized := true, served := s.served + s.waiters, waiters := 0 }
      else s

/-- Run the protocol from a fresh service over a sequence of events. -/
def initRun (events : List InitEvent) : InitState :=
  events.foldl initStep initState0

end SecondBrain.ChromaService

namespace SecondBrain

/-- Substring containment, witnessed by an explicit decomposition. -/
def strContains (hay needle : String) : Prop :=
  ∃ a b, hay = a ++ needle ++ b

/-- Test fixture: an environment whose store returns no documents and
whose model streams the given chunks for every prompt. -/
def envTokens (chunks : List String) : LLMService.StreamEnv :=
  { searchOutcome := fun _ _ => .ok []
    upstream := fun _ => .ok chunks
    nowMs := 1700000000000 }

/-- Test fixture: an environment whose store throws on every search and
whose model streams the given chunks. -/
def envStoreDown (chunks : List String) : LLMService.StreamEnv :=
  { searchOutcome := fun _ _ => .error ("Search failed: fetch failed")
    upstream := fun _ => .ok chunks
    nowMs := 1700000000000 }

/-- Test fixture: an environment whose store returns no documents and
whose model stream throws the given error. -/
def envUpstreamDown (e : String) : LLMService.StreamEnv :=
  { searchOutcome := fun _ _ => .ok []
    upstream := fun _ => .error e
    nowMs := 1700000000000 }

/-- Test fixture: a plain chat request whose last (only) message is
`Hello!`, with RAG off. -/
def reqHello : ChatRequest :=
  { messages := [{ role := "user", content := "Hello!" }]
    model := none
    useRag := some false
    ragLimit := none }

/-- Test fixture: a RAG chat request with the given `ragLimit`. -/
def reqRag (limit : Option Nat) : ChatRequest :=
  { messages := [{ role := "user", content := "Hello!" }]
    model := none
    useRag := some true
    ragLimit := limit }

/-- Test fixture: the store response of a query that found one document
at distance `2` (a distance outside `[0,1]`, as an L2 metric may
report). -/
def respDistTwo : ChromaService.QueryResponse :=
  { documents := some [[some "alpha"]]
    metadatas := some [[]]
    distances := some [[2]]
    ids := [["a"]] }

/-- Test fixture: the store response of a query that found one document
at distance `1/4`. -/
def respDistQuarter : ChromaService.QueryResponse :=
  { documents := some [[some "alpha"]]
    metadatas := some [[]]
    distances := some [[(1 : Rat)/4]]
    ids := [["a"]] }

/-- Test fixture: one retrieved result, for exercising the prompt
assembler. -/
def resultAlpha : SearchResult :=
  { document := { id := "a", content := "alpha", metadata := [] }, score := (3 : Rat)/4 }

/-- Test fixture: a second retrieved result. -/
def resultBeta : SearchResult :=
  { document := { id := "b", content := "beta", metadata := [] }, score := (1 : Rat)/2 }

/-- The successful `streamChat` outcome on `envTokens ["Hel", "lo!"]`
and `reqHello`, extracted from the function itself. -/
def streamOkHello : LLMService.StreamOk :=
  (LLMService.streamChat (envTokens ["Hel", "lo!"]) reqHello).toOption.getD
    { retrievalLimit := none, agentPrompt := "", chunks := [] }

/-- The successful `streamChat` outcome on `envTokens ["Hi"]` and
`reqRag (some 50)`, extracted from the function itself. -/
def streamOkRag50 : LLMService.StreamOk :=
  (LLMService.streamChat (envTokens ["Hi"]) (reqRag (some 50))).toOption.getD
    { retrievalLimit := none, agentPrompt := "", chunks := [] }

/-- Test fixture: a request whose last message is `Hello!` preceded by
one earlier user message. -/
def reqHistoryA : ChatRequest :=
  { messages := [{ role := "user", content := "earlier question" },
                 { role := "user", content := "Hello!" }]
    model := none
    useRag := some false
    ragLimit := none }

/-- Test fixture: a request whose last message is `Hello!` preceded by
a different, longer history. -/
def reqHistoryB : ChatRequest :=
  { messages := [{ role := "system", content := "be terse" },
                 { role := "assistant", content := "ok" },
                 { role := "user", content := "Hello!" }]
    model := none
    useRag := some false
    ragLimit := none }

end SecondBrain

namespace SecondBrain

/-- Every string is a substring of itself. -/
lemma strContains_self (x : String) : strContains x x :=
  ⟨"", "", by rw [String.empty_append, String.append_empty]⟩

/-- Substring containment survives prepending. -/
lemma strContains_append_right (s : String) {hay x : String} (h : strContains hay x) :
    strContains (s ++ hay) x := by
  obtain ⟨a, b, rfl⟩ := h
  exact ⟨s ++ a, b, by simp [String.append_assoc]⟩

/-- Substring containment survives appending. -/
lemma strContains_append_left {hay x : String} (s : String) (h : strContains hay x) :
    strContains (hay ++ s) x := by
  obtain ⟨a, b, rfl⟩ := h
  exact ⟨a, b ++ s, by simp [String.append_assoc]⟩

/-- A non-empty join starts with its first element. -/
lemma joinSep_cons (sep x : String) (xs : List String) :
    ∃ t, joinSep sep (x :: xs) = x ++ t := by
  cases xs with
  | nil => exact ⟨"", (String.append_empty x).symm⟩
  | cons y ys =>
      exact ⟨sep ++ joinSep sep (y :: ys), by simp [joinSep, String.append_assoc]⟩

/-- Every element of the joined list is contained in the join. -/
lemma joinSep_mem (sep : String) {x : String} {l : List String} (hx : x ∈ l) :
    strContains (joinSep sep l) x := by
  induction l with
  | nil => cases hx
  | cons y ys ih =>
      rcases List.mem_cons.mp hx with rfl | hmem
      · cases ys with
        | nil => exact strContains_self x
        | cons z zs =>
            exact ⟨"", sep ++ joinSep sep (z :: zs),
              by simp [joinSep, String.append_assoc, String.empty_append]⟩
      · cases ys with
        | nil => cases hmem
        | cons z zs =>
            exact strContains_append_right (y ++ sep) (ih hmem)

/-- The block at position `i` of `contextParts l s` carries label
`s + i + 1` and the `i`-th result's content. -/
lemma contextParts_mem (l : List SearchResult) (s i : Nat) (hi : i < l.length) :
    ("[Document " ++ toString (s + i + 1) ++ "]\n" ++ (l.get ⟨i, hi⟩).document.content)
      ∈ LLMService.contextParts l s := by
  induction l generalizing s i with
  | nil => exact absurd hi (by simp)
  | cons r rest ih =>
      cases i with
      | zero => exact List.mem_cons_self _ _
      | succ i =>
          have h' : i < rest.length := by simpa using hi
          have harg : s + (i + 1) + 1 = (s + 1) + i + 1 := by omega
          rw [harg]
          exact List.mem_cons_of_mem _ (ih (s + 1) i h')

/-- A context built from at least one result is JS-truthy (non-empty). -/
lemma retrieveContext_cons_ne (r : SearchResult) (rest : List SearchResult) :
    LLMService.retrieveContext (.ok (r :: rest)) ≠ "" := by
  show (if (r :: rest).length = 0 then ""
    else joinSep ("\n\n---\n\n") (LLMService.contextParts (r :: rest) 0)) ≠ ""
  rw [if_neg (by simp)]
  obtain ⟨t, ht⟩ := joinSep_cons ("\n\n---\n\n")
    ("[Document " ++ toString (0 + 1) ++ "]\n" ++ r.document.content)
    (LLMService.contextParts rest 1)
  show joinSep ("\n\n---\n\n")
      (("[Document " ++ toString (0 + 1) ++ "]\n" ++ r.document.content)
        :: LLMService.contextParts rest 1) ≠ ""
  rw [ht]
  intro h
  have hlen := congrArg String.length h
  simp only [String.length_append] at hlen
  have h10 : ("[Document ").length = 10 := rfl
  have h2 : ("]\n").length = 2 := rfl
  have h0 : ("" : String).length = 0 := rfl
  omega

/-- Dropping the JS-falsy (empty) tokens does not change the
accumulated text. -/
lemma accumulate_go (l : List String) (init : String) :
    l.foldl (fun acc t => acc ++ t) init = init ++ LLMService.accumulate l := by
  induction l generalizing init with
  | nil => simp [LLMService.accumulate, String.append_empty]
  | cons x xs ih =>
      simp only [LLMService.accumulate, List.foldl_cons]
      rw [ih (init ++ x), ih ("" ++ x), String.empty_append, String.append_assoc]

/-- Accumulation unfolds one token at a time. -/
lemma accumulate_cons (x : String) (xs : List String) :
    LLMService.accumulate (x :: xs) = x ++ LLMService.accumulate xs := by
  show List.foldl (fun acc t => acc ++ t) ("" ++ x) xs = _
  rw [accumulate_go xs ("" ++ x), String.empty_append]

/-- The `if (chunk.content)` filter of the agent's stream loop does not
change the accumulated full text. -/
lemma accumulate_filter (l : List String) :
    LLMService.accumulate (l.filter (fun c => c ≠ "")) = LLMService.accumulate l := by
  induction l with
  | nil => rfl
  | cons x xs ih =>
      by_cases hx : x = ""
      · subst hx
        rw [List.filter_cons_of_neg (by simp), ih, accumulate_cons, String.empty_append]
      · rw [List.filter_cons_of_pos (by simpa using hx), accumulate_cons, accumulate_cons, ih]

end SecondBrain

namespace SecondBrain.LLMService

/-- Unfolding equation for `streamChat`: the request fails on an empty
message list or an upstream error, both wrapped by the `catch`, and
succeeds with the single JSON-envelope chunk otherwise. -/
lemma streamChat_eq (env : StreamEnv) (req : ChatRequest) :
    streamChat env req =
      match req.messages.getLast? with
      | none =>
          .error ("LLM streaming error: " ++
            "Cannot read properties of undefined (reading \x27content\x27)")
      | some lastMessage =>
          match env.upstream
              (agentPromptFor env lastMessage.content (effectiveRetrievalLimit req)) with
          | .error e => .error ("LLM streaming error: " ++ ("DeepSeek API error: " ++ e))
          | .ok chunks =>
              .ok { retrievalLimit := effectiveRetrievalLimit req
                    agentPrompt :=
                      agentPromptFor env lastMessage.content (effectiveRetrievalLimit req)
                    chunks :=
                      [(envelopeFor env req
                        (accumulate (chunks.filter (fun c => c ≠ "")))).toJson] } := by
  cases hl : req.messages.getLast? with
  | none => simp [streamChat, streamChatBody, hl]
  | some lastMessage =>
      cases hs : env.upstream
          (agentPromptFor env lastMessage.content (effectiveRetrievalLimit req)) with
      | error e =>
          simp [streamChat, streamChatBody, SecondBrain.DeepSeekAgent.stream, hl, hs]
      | ok chunks =>
          simp [streamChat, streamChatBody, SecondBrain.DeepSeekAgent.stream, hl, hs]

/-- A successful `streamChat` call is fully determined by the last
message, the effective retrieval limit, and the upstream chunks. -/
lemma streamChat_ok_elim (env : StreamEnv) (req : ChatRequest) (r : StreamOk)
    (h : streamChat env req = .ok r) :
    ∃ lastMessage chunks,
      req.messages.getLast? = some lastMessage ∧
      env.upstream (agentPromptFor env lastMessage.content (effectiveRetrievalLimit req))
        = .ok chunks ∧
      r = { retrievalLimit := effectiveRetrievalLimit req
            agentPrompt :=
              agentPromptFor env lastMessage.content (effectiveRetrievalLimit req)
            chunks :=
              [(envelopeFor env req
                (accumulate (chunks.filter (fun c => c ≠ "")))).toJson] } := by
  rw [streamChat_eq] at h
  cases hl : req.messages.getLast? with
  | none => simp only [hl] at h; exact Except.noConfusion h
  | some lastMessage =>
      simp only [hl] at h
      cases hs : env.upstream
          (agentPromptFor env lastMessage.content (effectiveRetrievalLimit req)) with
      | error e => simp only [hs] at h; exact Except.noConfusion h
      | ok chunks =>
          simp only [hs, Except.ok.injEq] at h
          exact ⟨lastMessage, chunks, rfl, hs, h.symm⟩

end SecondBrain.LLMService

namespace SecondBrain

/-- C4: for every question string `q`, building the RAG prompt with an
empty retrieved context returns `q` unchanged — the empty result list
yields the empty context string, and `buildRagPrompt` then returns its
`userMessage` argument with no augmentation and no context block. -/
theorem c4_empty_context_returns_question (q : String) :
    LLMService.retrieveContext (Except.ok []) = "" ∧
    LLMService.buildRagPrompt q (LLMService.retrieveContext (Except.ok [])) = q :=
  ⟨rfl, rfl⟩

/-- C5: for every non-empty result list, the built prompt contains each
result's document content verbatim in the given order, labelled
`[Document N]` with `N` the 1-based position; the fixed fallback
sentence occurs verbatim in the instruction wrapper; and the context is
exactly the labelled blocks joined by the fixed separator (the function
is a pure Lean function, so determinism holds by construction). -/
theorem c5_prompt_contains_documents (results : List SearchResult) (q : String)
    (h : results ≠ []) :
    (∀ i (hi : i < results.length),
      strContains
        (LLMService.buildRagPrompt q (LLMService.retrieveContext (Except.ok results)))
        ("[Document " ++ toString (i + 1) ++ "]\n" ++
          (results.get ⟨i, hi⟩).document.content)) ∧
    strContains
      (LLMService.buildRagPrompt q (LLMService.retrieveContext (Except.ok results)))
      LLMService.ragFallbackSentence ∧
    LLMService.retrieveContext (Except.ok results)
      = joinSep ("\n\n---\n\n") (LLMService.contextParts results 0) := by
  obtain ⟨r, rest, rfl⟩ : ∃ r rest, results = r :: rest := by
    cases results with
    | nil => exact absurd rfl h
    | cons r rest => exact ⟨r, rest, rfl⟩
  have hctx : LLMService.retrieveContext (.ok (r :: rest))
      = joinSep ("\n\n---\n\n") (LLMService.contextParts (r :: rest) 0) := by
    show (if (r :: rest).length = 0 then ""
      else joinSep ("\n\n---\n\n") (LLMService.contextParts (r :: rest) 0)) = _
    rw [if_neg (by simp)]
  have hne := retrieveContext_cons_ne r rest
  have hprompt :
      LLMService.buildRagPrompt q (LLMService.retrieveContext (.ok (r :: rest)))
        = "Context information from documents:\n"
          ++ LLMService.retrieveContext (.ok (r :: rest))
          ++ "\n\n---\n\nBased on the context above, please answer the following question. If the context doesn\x27t contain relevant information, say \""
          ++ LLMService.ragFallbackSentence ++ "\"\n\nQuestion: " ++ q := by
    unfold LLMService.buildRagPrompt
    rw [if_neg hne]
  refine ⟨?_, ?_, hctx⟩
  · intro i hi
    have hmem := contextParts_mem (r :: rest) 0 i hi
    have h01 : 0 + i + 1 = i + 1 := by omega
    rw [h01] at hmem
    have hc := joinSep_mem ("\n\n---\n\n") hmem
    rw [← hctx] at hc
    rw [hprompt]
    exact strContains_append_left _ (strContains_append_left _ (strContains_append_left _
      (strContains_append_left _ (strContains_append_right _ hc))))
  · rw [hprompt]
    exact strContains_append_left _ (strContains_append_left _
      (strContains_append_right _ (strContains_self _)))

/-- C5 witness: the property at `[resultAlpha, resultBeta]` and the
question `What is alpha?`. -/
theorem c5_witness :
    ([resultAlpha, resultBeta] ≠ ([] : List SearchResult)) ∧
    ((∀ i (hi : i < [resultAlpha, resultBeta].length),
      strContains
        (LLMService.buildRagPrompt ("What is alpha?")
          (LLMService.retrieveContext (Except.ok [resultAlpha, resultBeta])))
        ("[Document " ++ toString (i + 1) ++ "]\n" ++
          ([resultAlpha, resultBeta].get ⟨i, hi⟩).document.content)) ∧
    strContains
      (LLMService.buildRagPrompt ("What is alpha?")
        (LLMService.retrieveContext (Except.ok [resultAlpha, resultBeta])))
      LLMService.ragFallbackSentence ∧
    LLMService.retrieveContext (Except.ok [resultAlpha, resultBeta])
      = joinSep ("\n\n---\n\n")
          (LLMService.contextParts [resultAlpha, resultBeta] 0)) :=
  ⟨by decide, c5_prompt_contains_documents [resultAlpha, resultBeta] ("What is alpha?")
    (by decide)⟩

/-- C3 (counterexample): the claim's defensive clamping does not exist —
a store distance of `2` produces a score of `-1`, outside `[0,1]`. -/
theorem c3_counterexample_score_below_zero :
    ChromaService.search respDistTwo
      = [{ document := { id := "a", content := "alpha", metadata := [] }, score := -1 }] ∧
    ¬ (0 : Rat) ≤ -1 := by
  constructor
  · simp [ChromaService.search, ChromaService.searchEntry, respDistTwo, jsOrString, jsOrRat]
    norm_num
  · norm_num

/-- C3 (amended): every result `r` of `search` arises from some index
`i` of the store\x27s first response row: the documents row holds exactly
`r`\x27s content at `i`, `r` is the record `searchEntry` builds from the
`ids`, `metadatas` and `distances` rows at `i` — in particular
`r.score = 1 - (distances[i] || 0)` for the distance the store reported
there — and the score lies in `[0,1]` whenever that reported distance
does; no defensive clamping is applied for distances outside `[0,1]`. -/
theorem c3_score_one_minus_distance (resp : ChromaService.QueryResponse)
    (r : SearchResult) (hr : r ∈ ChromaService.search resp) :
    ∃ (docRows : List (List (Option String))) (metaRows : List (List Metadata))
      (distRows : List (List Rat)) (i : Nat),
      resp.documents = some docRows ∧
      resp.metadatas = some metaRows ∧
      resp.distances = some distRows ∧
      (docRows.headD []).get? i = some (some r.document.content) ∧
      r = { document :=
              { id := jsOrString ((resp.ids.headD []).get? i) ("unknown_" ++ toString i)
                content := r.document.content
                metadata := ((metaRows.headD []).get? i).getD [] }
            score := 1 - jsOrRat ((distRows.headD []).get? i) 0 } ∧
      (0 ≤ jsOrRat ((distRows.headD []).get? i) 0 →
        jsOrRat ((distRows.headD []).get? i) 0 ≤ 1 →
        0 ≤ r.score ∧ r.score ≤ 1) := by
  rcases resp with ⟨docs, metas, dists, ids⟩
  rcases docs with _ | docRows
  · simp [ChromaService.search] at hr
  rcases metas with _ | metaRows
  · simp [ChromaService.search] at hr
  rcases dists with _ | distRows
  · simp [ChromaService.search] at hr
  simp only [ChromaService.search, List.reduceOption_mem_iff] at hr
  obtain ⟨p, hp, hfp⟩ := List.mem_map.mp hr
  obtain ⟨i, c⟩ := p
  rcases c with _ | c
  · exact absurd hfp (by simp [ChromaService.searchEntry])
  · have hfp' : (if c = "" then none
        else some ({ document :=
                       { id := jsOrString ((ids.headD []).get? i) ("unknown_" ++ toString i)
                         content := c
                         metadata := ((metaRows.headD []).get? i).getD [] }
                     score := 1 - jsOrRat ((distRows.headD []).get? i) 0 } : SearchResult))
      = some r := hfp
    by_cases hc : c = ""
    · rw [if_pos hc] at hfp'
      exact absurd hfp' (by simp)
    · rw [if_neg hc] at hfp'
      have hr' := Option.some.inj hfp'
      subst hr'
      refine ⟨docRows, metaRows, distRows, i, rfl, rfl, rfl, ?_, rfl, ?_⟩
      · exact List.mem_enum_iff_get?.mp hp
      · intro h0 h1
        show (0 : Rat) ≤ 1 - jsOrRat ((distRows.headD []).get? i) 0 ∧
          (1 : Rat) - jsOrRat ((distRows.headD []).get? i) 0 ≤ 1
        constructor <;> linarith

/-- C3 witness: the amended property at a store response reporting
distance `1/4`, giving score `3/4`. -/
theorem c3_witness :
    resultAlpha ∈ ChromaService.search respDistQuarter ∧
    (∃ (docRows : List (List (Option String))) (metaRows : List (List Metadata))
      (distRows : List (List Rat)) (i : Nat),
      respDistQuarter.documents = some docRows ∧
      respDistQuarter.metadatas = some metaRows ∧
      respDistQuarter.distances = some distRows ∧
      (docRows.headD []).get? i = some (some resultAlpha.document.content) ∧
      resultAlpha
        = { document :=
              { id := jsOrString ((respDistQuarter.ids.headD []).get? i) ("unknown_" ++ toString i)
                content := resultAlpha.document.content
                metadata := ((metaRows.headD []).get? i).getD [] }
            score := 1 - jsOrRat ((distRows.headD []).get? i) 0 } ∧
      (0 ≤ jsOrRat ((distRows.headD []).get? i) 0 →
        jsOrRat ((distRows.headD []).get? i) 0 ≤ 1 →
        0 ≤ resultAlpha.score ∧ resultAlpha.score ≤ 1)) := by
  have hmem : resultAlpha ∈ ChromaService.search respDistQuarter := by
    have hsearch : ChromaService.search respDistQuarter = [resultAlpha] := by
      simp [ChromaService.search, ChromaService.searchEntry, respDistQuarter,
        jsOrString, jsOrRat, resultAlpha]
      norm_num
    rw [hsearch]
    exact List.mem_singleton_self _
  exact ⟨hmem, c3_score_one_minus_distance respDistQuarter resultAlpha hmem⟩

/-- C6: context retrieval never propagates a store-level error to its
caller: a thrown search is caught and yields the empty context, and the
chat orchestration still succeeds when the store throws on every
search, provided the chat backend itself succeeds. -/
theorem c6_store_error_degrades_to_empty (env : LLMService.StreamEnv)
    (req : ChatRequest) (q e : String) (lim : Nat) (lastMessage : ChatMessage)
    (ts : List String)
    (hstore : ∀ q lim, env.searchOutcome q lim = .error e)
    (hl : req.messages.getLast? = some lastMessage)
    (hup : ∀ p, env.upstream p = .ok ts) :
    LLMService.retrieveContext (env.searchOutcome q lim) = "" ∧
    ∃ r, LLMService.streamChat env req = .ok r := by
  constructor
  · rw [hstore]; rfl
  · refine ⟨{ retrievalLimit := LLMService.effectiveRetrievalLimit req
              agentPrompt := LLMService.agentPromptFor env lastMessage.content
                (LLMService.effectiveRetrievalLimit req)
              chunks := [(LLMService.envelopeFor env req
                (LLMService.accumulate (ts.filter (fun c => c ≠ "")))).toJson] }, ?_⟩
    simp only [LLMService.streamChat_eq, hl, hup]

/-- C6 witness: a store that always throws, a RAG request, and a
healthy chat backend. -/
theorem c6_witness :
    LLMService.retrieveContext ((envStoreDown ["Hi"]).searchOutcome ("Hello!") 3) = "" ∧
    ∃ r, LLMService.streamChat (envStoreDown ["Hi"]) (reqRag (some 3)) = .ok r :=
  c6_store_error_degrades_to_empty (envStoreDown ["Hi"]) (reqRag (some 3))
    ("Hello!") ("Search failed: fetch failed") 3
    { role := "user", content := "Hello!" } ["Hi"]
    (fun _ _ => rfl) rfl (fun _ => rfl)

/-- C2 (counterexample): the claim says `ragLimit = 50` retrieves with
limit `10`; the code passes `50` to retrieval unchanged — there is no
clamping to `[1,10]`. -/
theorem c2_counterexample_limit_50_not_clamped :
    LLMService.streamChat (envTokens ["Hi"]) (reqRag (some 50)) = .ok streamOkRag50 ∧
    streamOkRag50.retrievalLimit = some 50 ∧
    ¬ (50 : Nat) ≤ 10 :=
  ⟨rfl, rfl, by decide⟩

/-- C2 (amended): the retrieval limit is `ragLimit || 3`, with no
clamping to `[1,10]`: any JS-truthy `ragLimit` (for example `50`) is
passed through unchanged, while an absent `ragLimit` and `ragLimit = 0`
(JS-falsy) both fall back to the default `3`. -/
theorem c2_ragLimit_is_or_default (env : LLMService.StreamEnv) (req : ChatRequest)
    (r : LLMService.StreamOk) (hRag : jsTruthy req.useRag = true)
    (h : LLMService.streamChat env req = .ok r) :
    r.retrievalLimit = some (jsOrNat req.ragLimit 3) ∧
    jsOrNat (some 50) 3 = 50 ∧ jsOrNat (some 0) 3 = 3 ∧ jsOrNat none 3 = 3 := by
  obtain ⟨lm, chunks, hl, hs, rfl⟩ := LLMService.streamChat_ok_elim env req r h
  refine ⟨?_, rfl, rfl, rfl⟩
  show LLMService.effectiveRetrievalLimit req = some (jsOrNat req.ragLimit 3)
  simp [LLMService.effectiveRetrievalLimit, hRag]

/-- C2 witness: the amended property at a request with `ragLimit = 50`. -/
theorem c2_witness :
    jsTruthy (reqRag (some 50)).useRag = true ∧
    streamOkRag50.retrievalLimit = some (jsOrNat (reqRag (some 50)).ragLimit 3) :=
  ⟨rfl, (c2_ragLimit_is_or_default (envTokens ["Hi"]) (reqRag (some 50))
    streamOkRag50 rfl rfl).1⟩

/-- C7: for every successfully streamed chat request, the final emitted
record is the JSON envelope whose `id` is `chatcmpl-<now>`, `object` is
`chat.completion`, `created` is epoch seconds (`now / 1000`), `model`
is the requested model (default `deepseek-chat`), and whose `choices`
is the single entry `index 0 / role assistant / content = accumulated
text / finishReason stop`; the route then emits the `data: [DONE]`
termination marker. -/
theorem c7_final_envelope_shape (env : LLMService.StreamEnv) (req : ChatRequest)
    (r : LLMService.StreamOk) (h : LLMService.streamChat env req = .ok r) :
    ∃ chunks full,
      env.upstream r.agentPrompt = .ok chunks ∧
      full = LLMService.accumulate (chunks.filter (fun c => c ≠ "")) ∧
      r.chunks = [(LLMService.envelopeFor env req full).toJson] ∧
      (LLMService.envelopeFor env req full).id = "chatcmpl-" ++ toString env.nowMs ∧
      (LLMService.envelopeFor env req full).object = "chat.completion" ∧
      (LLMService.envelopeFor env req full).created = env.nowMs / 1000 ∧
      (LLMService.envelopeFor env req full).model = jsOrString req.model ("deepseek-chat") ∧
      (LLMService.envelopeFor env req full).choices
        = [{ index := 0
             message := { role := "assistant", content := full }
             finishReason := "stop" }] ∧
      chatRoute env req = .ok (r.chunks.map sseFrame ++ [sseFrame ("[DONE]")]) := by
  obtain ⟨lm, chunks, hl, hs, rfl⟩ := LLMService.streamChat_ok_elim env req r h
  refine ⟨chunks, _, hs, rfl, rfl, rfl, rfl, rfl, rfl, rfl, ?_⟩
  unfold chatRoute
  rw [h]

/-- C7 witness: the envelope shape at a concrete successful stream. -/
theorem c7_witness :
    ∃ chunks full,
      (envTokens ["Hel", "lo!"]).upstream streamOkHello.agentPrompt = .ok chunks ∧
      full = LLMService.accumulate (chunks.filter (fun c => c ≠ "")) ∧
      streamOkHello.chunks
        = [(LLMService.envelopeFor (envTokens ["Hel", "lo!"]) reqHello full).toJson] ∧
      (LLMService.envelopeFor (envTokens ["Hel", "lo!"]) reqHello full).id
        = "chatcmpl-" ++ toString (envTokens ["Hel", "lo!"]).nowMs ∧
      (LLMService.envelopeFor (envTokens ["Hel", "lo!"]) reqHello full).object
        = "chat.completion" ∧
      (LLMService.envelopeFor (envTokens ["Hel", "lo!"]) reqHello full).created
        = (envTokens ["Hel", "lo!"]).nowMs / 1000 ∧
      (LLMService.envelopeFor (envTokens ["Hel", "lo!"]) reqHello full).model
        = jsOrString reqHello.model ("deepseek-chat") ∧
      (LLMService.envelopeFor (envTokens ["Hel", "lo!"]) reqHello full).choices
        = [{ index := 0
             message := { role := "assistant", content := full }
             finishReason := "stop" }] ∧
      chatRoute (envTokens ["Hel", "lo!"]) reqHello
        = .ok (streamOkHello.chunks.map sseFrame ++ [sseFrame ("[DONE]")]) :=
  c7_final_envelope_shape (envTokens ["Hel", "lo!"]) reqHello streamOkHello rfl

/-- C8 (counterexample): a chat-backend error during streaming is
surfaced as `LLM streaming error: <detail>`, not as the claimed single
taxonomy value `LLM service error: <detail>` — no string of the latter
shape equals the produced message. -/
theorem c8_counterexample_wrong_prefix :
    LLMService.streamChat (envUpstreamDown "boom") reqHello
      = .error ("LLM streaming error: DeepSeek API error: boom") ∧
    ∀ detail, ("LLM streaming error: DeepSeek API error: boom" : String)
      ≠ "LLM service error: " ++ detail := by
  constructor
  · rfl
  · intro detail hEq
    have hd := congrArg String.data hEq
    rw [String.data_append] at hd
    have htake := congrArg (List.take (("LLM service error: ").data.length)) hd
    rw [List.take_left] at htake
    exact absurd htake (by decide)

/-- C8 (amended): any upstream transport or API error during streaming
is wrapped — first as `DeepSeek API error: <detail>` by the agent, then
as `LLM streaming error: <detail>` by `streamChat`\x27s catch (the
`LLM service error:` prefix belongs to the non-streaming `chat`
method) — and surfaced to the caller: the route fails with the same
error, emits no `[DONE]` marker, and no retry is attempted (the agent
is invoked exactly once per request by construction). -/
theorem c8_upstream_error_surfaced (env : LLMService.StreamEnv) (req : ChatRequest)
    (e : String) (lastMessage : ChatMessage)
    (hl : req.messages.getLast? = some lastMessage)
    (hup : ∀ p, env.upstream p = .error e) :
    LLMService.streamChat env req
      = .error ("LLM streaming error: " ++ ("DeepSeek API error: " ++ e)) ∧
    chatRoute env req
      = .error ("LLM streaming error: " ++ ("DeepSeek API error: " ++ e)) := by
  have h1 : LLMService.streamChat env req
      = .error ("LLM streaming error: " ++ ("DeepSeek API error: " ++ e)) := by
    simp only [LLMService.streamChat_eq, hl, hup]
  refine ⟨h1, ?_⟩
  unfold chatRoute
  rw [h1]

/-- C8 witness: the amended property at a backend failing with `boom`. -/
theorem c8_witness :
    LLMService.streamChat (envUpstreamDown "boom") reqHello
      = .error ("LLM streaming error: " ++ ("DeepSeek API error: " ++ "boom")) ∧
    chatRoute (envUpstreamDown "boom") reqHello
      = .error ("LLM streaming error: " ++ ("DeepSeek API error: " ++ "boom")) :=
  c8_upstream_error_surfaced (envUpstreamDown "boom") reqHello "boom"
    { role := "user", content := "Hello!" } rfl (fun _ => rfl)

/-- Arrivals while an initialization is pending only add waiters: the
started-count stays `1`. -/
lemma initRun_arrivals (k w sv : Nat) :
    (List.replicate k ChromaService.InitEvent.arrive).foldl ChromaService.initStep
        { initialized := false, pending := true, initCount := 1, waiters := w, served := sv }
      = { initialized := false, pending := true, initCount := 1,
          waiters := w + k, served := sv } := by
  induction k generalizing w with
  | zero => simp
  | succ k ih =>
      rw [List.replicate_succ, List.foldl_cons]
      have hstep : ChromaService.initStep
          { initialized := false, pending := true, initCount := 1, waiters := w, served := sv }
          ChromaService.InitEvent.arrive
        = { initialized := false, pending := true, initCount := 1,
            waiters := w + 1, served := sv } := rfl
      rw [hstep, ih (w + 1)]
      have harg : w + 1 + k = w + (k + 1) := by omega
      rw [harg]

/-- C9: when `n ≥ 1` requests all hit the uninitialized service before
the pending initialization resolves (the JS event loop runs each
`ensureInitialized` prefix atomically), exactly one `initialize()` call
is started — late arrivals await the shared pending promise — and once
it resolves all `n` callers succeed. -/
theorem c9_concurrent_first_use_single_init (n : Nat) (h : 1 ≤ n) :
    (ChromaService.initRun (List.replicate n ChromaService.InitEvent.arrive
        ++ [ChromaService.InitEvent.complete])).initCount = 1 ∧
    (ChromaService.initRun (List.replicate n ChromaService.InitEvent.arrive
        ++ [ChromaService.InitEvent.complete])).served = n ∧
    (ChromaService.initRun (List.replicate n ChromaService.InitEvent.arrive
        ++ [ChromaService.InitEvent.complete])).initialized = true := by
  obtain ⟨k, rfl⟩ : ∃ k, n = k + 1 := ⟨n - 1, by omega⟩
  unfold ChromaService.initRun
  rw [List.replicate_succ, List.cons_append, List.foldl_cons]
  have h0 : ChromaService.initStep ChromaService.initState0 ChromaService.InitEvent.arrive
      = { initialized := false, pending := true, initCount := 1,
          waiters := 1, served := 0 } := rfl
  rw [h0, List.foldl_append, initRun_arrivals k 1 0, List.foldl_cons]
  have hc : ChromaService.initStep
      { initialized := false, pending := true, initCount := 1, waiters := 1 + k, served := 0 }
      ChromaService.InitEvent.complete
    = { initialized := true, pending := true, initCount := 1,
        waiters := 0, served := 0 + (1 + k) } := rfl
  rw [hc, List.foldl_nil]
  refine ⟨rfl, ?_, rfl⟩
  show 0 + (1 + k) = k + 1
  omega

/-- C9 witness: two concurrent first requests. -/
theorem c9_witness :
    1 ≤ 2 ∧
    ((ChromaService.initRun (List.replicate 2 ChromaService.InitEvent.arrive
        ++ [ChromaService.InitEvent.complete])).initCount = 1 ∧
     (ChromaService.initRun (List.replicate 2 ChromaService.InitEvent.arrive
        ++ [ChromaService.InitEvent.complete])).served = 2 ∧
     (ChromaService.initRun (List.replicate 2 ChromaService.InitEvent.arrive
        ++ [ChromaService.InitEvent.complete])).initialized = true) :=
  ⟨by decide, c9_concurrent_first_use_single_init 2 (by decide)⟩

/-- C10: two chat requests with the same last-message content and the
same `useRag`, `ragLimit` and `model` fields produce identical
`streamChat` outcomes — in particular the identical agent prompt —
regardless of the earlier conversation history, which `streamChat`
never reads. -/
theorem c10_history_has_no_effect (env : LLMService.StreamEnv)
    (req1 req2 : ChatRequest)
    (hlast : (req1.messages.getLast?).map ChatMessage.content
      = (req2.messages.getLast?).map ChatMessage.content)
    (hrag : req1.useRag = req2.useRag)
    (hlim : req1.ragLimit = req2.ragLimit)
    (hmodel : req1.model = req2.model) :
    LLMService.streamChat env req1 = LLMService.streamChat env req2 := by
  have hEff : LLMService.effectiveRetrievalLimit req1
      = LLMService.effectiveRetrievalLimit req2 := by
    unfold LLMService.effectiveRetrievalLimit
    rw [hrag, hlim]
  have hEnv : ∀ s, LLMService.envelopeFor env req1 s = LLMService.envelopeFor env req2 s := by
    intro s
    unfold LLMService.envelopeFor
    rw [hmodel]
  rw [LLMService.streamChat_eq, LLMService.streamChat_eq]
  cases h1 : req1.messages.getLast? with
  | none =>
      cases h2 : req2.messages.getLast? with
      | none => rfl
      | some m2 => rw [h1, h2] at hlast; simp at hlast
  | some m1 =>
      cases h2 : req2.messages.getLast? with
      | none => rw [h1, h2] at hlast; simp at hlast
      | some m2 =>
          rw [h1, h2] at hlast
          simp only [Option.map_some', Option.some.injEq] at hlast
          simp only [hEff, hlast, hEnv]

/-- C10 witness: two requests with different histories and the same
last message give byte-identical stream outcomes. -/
theorem c10_witness :
    ((reqHistoryA.messages.getLast?).map ChatMessage.content
      = (reqHistoryB.messages.getLast?).map ChatMessage.content) ∧
    LLMService.streamChat (envTokens ["Hel", "lo!"]) reqHistoryA
      = LLMService.streamChat (envTokens ["Hel", "lo!"]) reqHistoryB :=
  ⟨rfl, c10_history_has_no_effect (envTokens ["Hel", "lo!"]) reqHistoryA reqHistoryB
    rfl rfl rfl rfl⟩

/-- C1 (counterexample): with backend tokens `Hel`, `lo!` the full
generated text is `Hello!`, but the concatenation of the streamed chunk
contents is the single JSON envelope, not `Hello!` — tokens are never
forwarded individually. -/
theorem c1_counterexample_chunks_not_tokens :
    LLMService.streamChat (envTokens ["Hel", "lo!"]) reqHello = .ok streamOkHello ∧
    LLMService.accumulate ["Hel", "lo!"] = "Hello!" ∧
    chatRoute (envTokens ["Hel", "lo!"]) reqHello
      = .ok (streamOkHello.chunks.map sseFrame ++ [sseFrame ("[DONE]")]) ∧
    LLMService.accumulate streamOkHello.chunks ≠ "Hello!" := by
  refine ⟨rfl, rfl, rfl, ?_⟩
  decide

/-- C1 (amended): the SSE response is the `data:` frames of the yielded
chunks terminated by the literal `data: [DONE]` frame; the backend's
tokens are only accumulated (not forwarded one-by-one), and the
accumulated text — equal to the concatenation of all upstream chunks —
is delivered as the assistant content of the single JSON envelope
chunk. -/
theorem c1_sse_framing_single_envelope (env : LLMService.StreamEnv)
    (req : ChatRequest) (r : LLMService.StreamOk) (chunks : List String)
    (h : LLMService.streamChat env req = .ok r)
    (hs : env.upstream r.agentPrompt = .ok chunks) :
    chatRoute env req = .ok (r.chunks.map sseFrame ++ [sseFrame ("[DONE]")]) ∧
    r.chunks = [(LLMService.envelopeFor env req (LLMService.accumulate chunks)).toJson] ∧
    (LLMService.envelopeFor env req (LLMService.accumulate chunks)).choices.map
      (fun c => c.message.content) = [LLMService.accumulate chunks] := by
  obtain ⟨lm, chunks', hl, hs', rfl⟩ := LLMService.streamChat_ok_elim env req r h
  have hch : chunks = chunks' := by
    have := hs.symm.trans hs'
    exact Except.ok.inj this
  subst hch
  refine ⟨?_, ?_, rfl⟩
  · unfold chatRoute
    rw [h]
  · show [(LLMService.envelopeFor env req
        (LLMService.accumulate (chunks.filter (fun c => c ≠ "")))).toJson] = _
    rw [accumulate_filter]

/-- C1 witness: the amended property at a concrete two-token stream. -/
theorem c1_witness :
    chatRoute (envTokens ["Hel", "lo!"]) reqHello
      = .ok (streamOkHello.chunks.map sseFrame ++ [sseFrame ("[DONE]")]) ∧
    streamOkHello.chunks = [(LLMService.envelopeFor (envTokens ["Hel", "lo!"]) reqHello
      (LLMService.accumulate ["Hel", "lo!"])).toJson] ∧
    (LLMService.envelopeFor (envTokens ["Hel", "lo!"]) reqHello
      (LLMService.accumulate ["Hel", "lo!"])).choices.map
        (fun c => c.message.content) = [LLMService.accumulate ["Hel", "lo!"]] :=
  c1_sse_framing_single_envelope (envTokens ["Hel", "lo!"]) reqHello streamOkHello
    ["Hel", "lo!"] rfl rfl

end SecondBrain
